import Mathlib

/-!
Verification of the UnixPi monitoring pipelines (`unixpi/security/system_monitor.py`
and `unixpi/security/network_analyzer.py`) against their specification.

The Python code is shallowly embedded: dictionaries become structures or
association lists, Python `datetime` values become rationals, in-place state
mutation becomes explicit state passing, and a body that can raise becomes an
`Except` value whose `error` branch carries the state visible to the caller at
the moment of the raise (Python exception handlers do not roll back prior
in-place mutations, so wherever a raise can happen after a mutation the partial
state is carried in the error).
-/

namespace UnixPi

/-! ## System monitor: risk level reduction (`SystemMonitor._calculate_risk_level`) -/

/-- One entry of `results["anomalies"]`: the dicts appended by `_check_anomalies`. -/
structure Anomaly where
  timestamp : ℚ
  type : String
  severity : String
  description : String
deriving DecidableEq, Repr

/-- One entry of `results["security_issues"]`: the dicts appended by `_security_assessment`. -/
structure SecIssue where
  type : String
  severity : String
  description : String
  recommendation : String
deriving DecidableEq, Repr

/-- The `severity_scores` lookup with default 0:
`{"CRITICAL": 4, "HIGH": 3, "MEDIUM": 2, "LOW": 1}.get(item["severity"], 0)`. -/
def severityScores (s : String) : ℕ :=
  if s = "CRITICAL" then 4
  else if s = "HIGH" then 3
  else if s = "MEDIUM" then 2
  else if s = "LOW" then 1
  else 0

/-- The `max_score` accumulation loop of `_calculate_risk_level`:
`max_score = 0; for item in ...: max_score = max(max_score, score)`. -/
def maxSeverityScore (sevs : List String) : ℕ :=
  sevs.foldl (fun m s => max m (severityScores s)) 0

/-- The final `if max_score >= 4 ... else "LOW"` ladder of `_calculate_risk_level`. -/
def scoreToRisk (n : ℕ) : String :=
  if n ≥ 4 then "CRITICAL"
  else if n ≥ 3 then "HIGH"
  else if n ≥ 2 then "MEDIUM"
  else "LOW"

/-- `SystemMonitor._calculate_risk_level(anomalies, security_issues)`: the loop runs
over `anomalies + security_issues` and reads only each item's `"severity"` field. -/
def calculateRiskLevel (anomalies : List Anomaly) (securityIssues : List SecIssue) : String :=
  scoreToRisk (maxSeverityScore
    (anomalies.map (fun a => a.severity) ++ securityIssues.map (fun s => s.severity)))

lemma maxSeverityScore_nil : maxSeverityScore [] = 0 := rfl

lemma maxSeverityScore_go (l : List String) (a : ℕ) :
    l.foldl (fun m s => max m (severityScores s)) a = max a (maxSeverityScore l) := by
  induction l generalizing a with
  | nil => simp [maxSeverityScore]
  | cons x xs ih =>
    simp only [maxSeverityScore, List.foldl_cons] at *
    rw [ih (max a (severityScores x)), ih (max 0 (severityScores x))]
    simp [max_assoc, Nat.zero_max]

lemma maxSeverityScore_cons (s : String) (l : List String) :
    maxSeverityScore (s :: l) = max (severityScores s) (maxSeverityScore l) := by
  simp only [maxSeverityScore, List.foldl_cons]
  rw [maxSeverityScore_go]
  simp [maxSeverityScore, Nat.zero_max]

lemma maxSeverityScore_perm {l₁ l₂ : List String} (h : l₁.Perm l₂) :
    maxSeverityScore l₁ = maxSeverityScore l₂ := by
  induction h with
  | nil => rfl
  | cons x _ ih => simp [maxSeverityScore_cons, ih]
  | swap x y l =>
    simp only [maxSeverityScore_cons]
    rw [← max_assoc, ← max_assoc, max_comm (severityScores y) (severityScores x)]
  | trans _ _ ih₁ ih₂ => exact ih₁.trans ih₂

lemma le_maxSeverityScore {s : String} {l : List String} (h : s ∈ l) :
    severityScores s ≤ maxSeverityScore l := by
  induction l with
  | nil => cases h
  | cons x xs ih =>
    rw [maxSeverityScore_cons]
    rcases List.mem_cons.mp h with rfl | hx
    · exact le_max_left _ _
    · exact le_trans (ih hx) (le_max_right _ _)

lemma maxSeverityScore_attained {l : List String} (h : l ≠ []) :
    ∃ s ∈ l, maxSeverityScore l = severityScores s := by
  induction l with
  | nil => exact absurd rfl h
  | cons x xs ih =>
    rw [maxSeverityScore_cons]
    rcases eq_or_ne xs [] with rfl | hxs
    · exact ⟨x, List.mem_cons_self _ _, by simp [maxSeverityScore_nil]⟩
    · rcases ih hxs with ⟨s, hs, hmax⟩
      rcases le_total (severityScores x) (maxSeverityScore xs) with hle | hle
      · exact ⟨s, List.mem_cons_of_mem _ hs, by rw [max_eq_right hle, hmax]⟩
      · exact ⟨x, List.mem_cons_self _ _, by rw [max_eq_left hle]⟩

lemma scoreToRisk_severityScores {s : String}
    (h : s = "LOW" ∨ s = "MEDIUM" ∨ s = "HIGH" ∨ s = "CRITICAL") :
    scoreToRisk (severityScores s) = s := by
  rcases h with rfl | rfl | rfl | rfl <;> rfl

lemma severityScores_scoreToRisk {m : ℕ} (h1 : 1 ≤ m) (h4 : m ≤ 4) :
    severityScores (scoreToRisk m) = m := by
  interval_cases m <;> rfl

lemma severityScores_le_four (s : String) : severityScores s ≤ 4 := by
  unfold severityScores
  split_ifs <;> omega

lemma one_le_severityScores {s : String}
    (h : s = "LOW" ∨ s = "MEDIUM" ∨ s = "HIGH" ∨ s = "CRITICAL") :
    1 ≤ severityScores s := by
  rcases h with rfl | rfl | rfl | rfl <;> decide

/-- The severity strings of `anomalies + security_issues`, in iteration order. -/
def severitiesOf (anomalies : List Anomaly) (securityIssues : List SecIssue) : List String :=
  anomalies.map (fun a => a.severity) ++ securityIssues.map (fun i => i.severity)

lemma calculateRiskLevel_eq (anoms : List Anomaly) (secs : List SecIssue) :
    calculateRiskLevel anoms secs = scoreToRisk (maxSeverityScore (severitiesOf anoms secs)) := rfl

/-- C1: for findings drawn from the severity enum, `_calculate_risk_level` returns LOW on an
empty finding set, is an upper bound of all finding severities under the LOW(1) < MEDIUM(2) <
HIGH(3) < CRITICAL(4) scoring, is itself one of the finding severities when the set is
nonempty (hence it is the maximum severity), returns CRITICAL as soon as one CRITICAL finding
is present, and is invariant under permutation of the findings. -/
theorem riskLevel_is_max_severity (anoms : List Anomaly) (secs : List SecIssue)
    (hvalid : ∀ s ∈ severitiesOf anoms secs,
      s = "LOW" ∨ s = "MEDIUM" ∨ s = "HIGH" ∨ s = "CRITICAL") :
    (anoms = [] ∧ secs = [] → calculateRiskLevel anoms secs = "LOW") ∧
    (∀ s ∈ severitiesOf anoms secs,
      severityScores s ≤ severityScores (calculateRiskLevel anoms secs)) ∧
    (¬(anoms = [] ∧ secs = []) → calculateRiskLevel anoms secs ∈ severitiesOf anoms secs) ∧
    ("CRITICAL" ∈ severitiesOf anoms secs → calculateRiskLevel anoms secs = "CRITICAL") ∧
    (∀ (anoms₂ : List Anomaly) (secs₂ : List SecIssue),
      (severitiesOf anoms secs).Perm (severitiesOf anoms₂ secs₂) →
      calculateRiskLevel anoms₂ secs₂ = calculateRiskLevel anoms secs) := by
  refine ⟨?_, ?_, ?_, ?_, ?_⟩
  · rintro ⟨rfl, rfl⟩
    rfl
  · intro s hs
    have hne : severitiesOf anoms secs ≠ [] := by
      intro h
      rw [h] at hs
      cases hs
    obtain ⟨t, ht, hmax⟩ := maxSeverityScore_attained hne
    rw [calculateRiskLevel_eq, severityScores_scoreToRisk]
    · exact le_maxSeverityScore hs
    · exact le_trans (one_le_severityScores (hvalid s hs)) (le_maxSeverityScore hs)
    · rw [hmax]
      exact severityScores_le_four t
  · intro hne
    have hne2 : severitiesOf anoms secs ≠ [] := by
      simp only [severitiesOf, ne_eq, List.append_eq_nil, List.map_eq_nil_iff]
      tauto
    obtain ⟨t, ht, hmax⟩ := maxSeverityScore_attained hne2
    rw [calculateRiskLevel_eq, hmax, scoreToRisk_severityScores (hvalid t ht)]
    exact ht
  · intro hcrit
    have hub := le_maxSeverityScore hcrit
    have hne : severitiesOf anoms secs ≠ [] := by
      intro h
      rw [h] at hcrit
      cases hcrit
    obtain ⟨t, ht, hmax⟩ := maxSeverityScore_attained hne
    have h4 : maxSeverityScore (severitiesOf anoms secs) = 4 := by
      have := severityScores_le_four t
      rw [hmax] at hub ⊢
      have hcs : severityScores "CRITICAL" = 4 := rfl
      omega
    rw [calculateRiskLevel_eq, h4]
    rfl
  · intro anoms₂ secs₂ hperm
    rw [calculateRiskLevel_eq, calculateRiskLevel_eq, maxSeverityScore_perm hperm]

/-- Witness for C1 at a concrete input: one CRITICAL security issue among LOW anomalies
yields risk level CRITICAL. -/
theorem riskLevel_is_max_severity_witness :
    calculateRiskLevel
      [⟨0, "CPU_USAGE", "LOW", "x"⟩, ⟨0, "DISK_SPACE", "LOW", "y"⟩]
      [⟨"SUSPICIOUS_PROCESS", "CRITICAL", "z", "r"⟩] = "CRITICAL" :=
  (riskLevel_is_max_severity
      [⟨0, "CPU_USAGE", "LOW", "x"⟩, ⟨0, "DISK_SPACE", "LOW", "y"⟩]
      [⟨"SUSPICIOUS_PROCESS", "CRITICAL", "z", "r"⟩]
      (by intro s hs; simp only [severitiesOf] at hs; fin_cases hs <;> simp)).2.2.2.1
    (by simp [severitiesOf])

/-! ## System monitor: state samples and `_check_anomalies` -/

/-- The fields of the `_get_system_state` sample dict that `_check_anomalies` and
`_security_assessment` consult. Timestamps and metric values are modelled as rationals. -/
structure StateRecord where
  timestamp : ℚ
  cpuPercent : ℚ
  memoryPercent : ℚ
  /-- `sample["disk"]["usage"]`: mount path to usage percent, in dict order. -/
  diskUsage : List (String × ℚ)
  networkConnections : ℕ
  processesTotal : ℕ
deriving DecidableEq, Repr

/-- The absolute-threshold rules of `_check_anomalies` (lines 144-180): CPU > 90 is a HIGH
CPU_USAGE anomaly, virtual memory > 90 is a HIGH MEMORY_USAGE anomaly, each disk partition
above 90 is a MEDIUM DISK_SPACE anomaly, appended in that order. -/
def absoluteAnomalies (sample : StateRecord) : List Anomaly :=
  (if sample.cpuPercent > 90 then
    [⟨sample.timestamp, "CPU_USAGE", "HIGH",
      "High CPU usage: " ++ toString sample.cpuPercent ++ "%"⟩]
  else []) ++
  (if sample.memoryPercent > 90 then
    [⟨sample.timestamp, "MEMORY_USAGE", "HIGH",
      "High memory usage: " ++ toString sample.memoryPercent ++ "%"⟩]
  else []) ++
  sample.diskUsage.filterMap (fun pu =>
    if pu.2 > 90 then
      some ⟨sample.timestamp, "DISK_SPACE", "MEDIUM",
        "Low disk space on " ++ pu.1 ++ ": " ++ toString pu.2 ++ "%"⟩
    else none)

/-- The baseline-relative rules of `_check_anomalies` (lines 182-205): process count above
baseline x 1.5 is a MEDIUM PROCESS_COUNT anomaly, connection count above baseline x 2 is a
HIGH NETWORK_CONNECTIONS anomaly. -/
def relativeAnomalies (sample baseline : StateRecord) : List Anomaly :=
  (if (sample.processesTotal : ℚ) > (baseline.processesTotal : ℚ) * (3 / 2 : ℚ) then
    [⟨sample.timestamp, "PROCESS_COUNT", "MEDIUM", "Unusual increase in process count"⟩]
  else []) ++
  (if sample.networkConnections > baseline.networkConnections * 2 then
    [⟨sample.timestamp, "NETWORK_CONNECTIONS", "HIGH",
      "Unusual increase in network connections"⟩]
  else [])

/-- `SystemMonitor._check_anomalies(sample, results)`. The absolute-threshold rules run
first. The baseline-relative rules then dereference `self.baseline["processes"]["total"]`
with no `None` guard, so when no baseline has been set the call raises a `TypeError`
(line 183); the `.error` branch carries the anomalies already appended to
`results["anomalies"]` at the moment of the raise. -/
def checkAnomalies (sample : StateRecord) (baseline : Option StateRecord) :
    Except (List Anomaly) (List Anomaly) :=
  match baseline with
  | none => .error (absoluteAnomalies sample)
  | some b => .ok (absoluteAnomalies sample ++ relativeAnomalies sample b)

/-- The anomalies visible in `results["anomalies"]` after the call, whether or not the
call raised (Python appends mutate `results` in place, so they survive a later raise). -/
def anomaliesAppended (e : Except (List Anomaly) (List Anomaly)) : List Anomaly :=
  match e with
  | .ok l => l
  | .error l => l

/-- Whether an embedded call raised. -/
def raised {ε α : Type _} (e : Except ε α) : Bool :=
  match e with
  | .error _ => true
  | .ok _ => false

/-! ## System monitor: `_security_assessment` and the `monitor` driver -/

/-- The fields of a `psutil` process entry consulted by `_security_assessment`. -/
structure ProcInfo where
  name : String
  username : String
deriving DecidableEq, Repr

/-- Python `needle in haystack` substring test. -/
def strContains (haystack needle : String) : Bool :=
  haystack.data.tails.any (fun t => List.isPrefixOf needle.data t)

/-- The process scan of `_security_assessment` (lines 214-245): a process running as root
is a MEDIUM PROCESS_PRIVILEGE issue; a process whose lowercased name contains "crypto",
"miner" or "botnet" is a HIGH SUSPICIOUS_PROCESS issue. -/
def procIssues (procs : List ProcInfo) : List SecIssue :=
  procs.foldr (fun p acc =>
    (if p.username = "root" then
      [⟨"PROCESS_PRIVILEGE", "MEDIUM", "Process " ++ p.name ++ " running as root",
        "Review process privileges"⟩]
    else []) ++
    (if ["crypto", "miner", "botnet"].any (fun mal => strContains p.name.toLower mal) then
      [⟨"SUSPICIOUS_PROCESS", "HIGH", "Suspicious process detected: " ++ p.name,
        "Investigate process"⟩]
    else []) ++ acc) []

/-- `SystemMonitor._security_assessment(results)` (lines 207-256): appends the process-scan
issues, then reads `results["samples"][-1]`, which raises `IndexError` when the sample list
is empty (the `.error` branch carries the issues appended before the raise); otherwise it
adds a MEDIUM NETWORK_CONNECTIONS issue when the last sample has over 1000 connections. -/
def securityAssessment (procs : List ProcInfo) (samples : List StateRecord)
    (securityIssues : List SecIssue) : Except (List SecIssue) (List SecIssue) :=
  let issues := securityIssues ++ procIssues procs
  match samples.getLast? with
  | none => .error issues
  | some lastSample =>
      .ok (issues ++
        if lastSample.networkConnections > 1000 then
          [⟨"NETWORK_CONNECTIONS", "MEDIUM", "High number of network connections",
            "Review network activity"⟩]
        else [])

/-- The `results` dict built by `monitor`; the `baseline` field models the `"baseline"`
key, which is present only when the baseline was captured during this call. -/
structure MonitorResults where
  startTime : ℚ
  duration : ℕ
  interval : ℚ
  samples : List StateRecord
  anomalies : List Anomaly
  securityIssues : List SecIssue
  baseline : Option StateRecord
deriving Repr

/-- Python `int()` applied to a quotient: truncation toward zero. -/
def pyInt (q : ℚ) : ℤ :=
  if 0 ≤ q then ⌊q⌋ else ⌈q⌉

/-- The sampling loop of `monitor` (lines 65-72): each iteration acquires one state from
the source, appends it to `results["samples"]`, and appends the `_check_anomalies` output
(the baseline is always set before the loop, so `checkAnomalies` never raises here). -/
def sampleLoop (baseline : StateRecord) (source : ℕ → StateRecord) :
    ℕ → ℕ → List StateRecord × List Anomaly
  | _, 0 => ([], [])
  | idx, n + 1 =>
      let s := source idx
      let rest := sampleLoop baseline source (idx + 1) n
      (s :: rest.1, anomaliesAppended (checkAnomalies s (some baseline)) ++ rest.2)

/-- The security issues visible in `results["security_issues"]` after a
`_security_assessment` call, whether or not the call raised. -/
def secIssuesAppended (e : Except (List SecIssue) (List SecIssue)) : List SecIssue :=
  match e with
  | .ok l => l
  | .error l => l

/-- The content of the `results` dict of `monitor` after the call: the dict is mutated in
place, so this is well defined whether or not `_security_assessment` raised at the end. -/
def monitorRun (baseline0 : Option StateRecord) (startTime : ℚ) (duration : ℕ)
    (interval : ℚ) (source : ℕ → StateRecord) (procs : List ProcInfo) : MonitorResults :=
  let captured := baseline0.isNone
  let baseline := baseline0.getD (source 0)
  let startIdx := if captured then 1 else 0
  let samplesCount := (pyInt ((duration : ℚ) / interval)).toNat
  let sa := sampleLoop baseline source startIdx samplesCount
  ⟨startTime, duration, interval, sa.1, sa.2,
    secIssuesAppended (securityAssessment procs sa.1 []),
    if captured then some baseline else none⟩

/-- `SystemMonitor.monitor(duration, interval)` (lines 38-83). The OS state provider is
modelled as the `source` stream consumed one record per `_get_system_state` call, and the
process table as `procs`. `baseline0` is the `self.baseline` field on entry; when it is
`None` the first source record becomes the baseline and is recorded under the results
`"baseline"` key. The loop runs `int(duration / interval)` iterations, then
`_security_assessment` runs; an `IndexError` there propagates out of `monitor`
(the `.error` branch carries the partially filled results dict). -/
def monitor (baseline0 : Option StateRecord) (startTime : ℚ) (duration : ℕ) (interval : ℚ)
    (source : ℕ → StateRecord) (procs : List ProcInfo) :
    Except MonitorResults MonitorResults :=
  let results := monitorRun baseline0 startTime duration interval source procs
  if raised (securityAssessment procs results.samples []) then .error results
  else .ok results

/-- The `results` dict as observable after the call, raised or not. -/
def monitorResults (e : Except MonitorResults MonitorResults) : MonitorResults :=
  match e with
  | .ok r => r
  | .error r => r

/-! ## Theorems about `_check_anomalies` and the `monitor` driver -/

/-- A quiet state sample used as a concrete input: nothing above any threshold. -/
def quietSample : StateRecord :=
  ⟨0, 50, 50, [], 10, 10⟩

/-- C4 counterexample: with no baseline set, evaluating a quiet sample does not complete;
`_check_anomalies` raises (a `TypeError` on the `None` baseline dereference) instead of
skipping the baseline-relative rules. -/
theorem checkAnomalies_no_baseline_counterexample :
    raised (checkAnomalies quietSample none) = true := rfl

/-- C4 (amended): when no baseline has been set, `_check_anomalies` appends only the
absolute-threshold findings and then raises on the baseline dereference (the relative
rules are not skipped); with a baseline present the evaluation completes without raising. -/
theorem checkAnomalies_no_baseline_raises :
    (∀ s : StateRecord, checkAnomalies s none = .error (absoluteAnomalies s)) ∧
    (∀ s b : StateRecord, raised (checkAnomalies s (some b)) = false) :=
  ⟨fun _ => rfl, fun _ _ => rfl⟩

lemma filter_cpu_memory (s : StateRecord) :
    (if s.memoryPercent > 90 then
        [⟨s.timestamp, "MEMORY_USAGE", "HIGH",
          "High memory usage: " ++ toString s.memoryPercent ++ "%"⟩]
      else ([] : List Anomaly)).filter (fun a => a.type == "CPU_USAGE") = [] := by
  split <;> simp

lemma filter_cpu_disk (s : StateRecord) :
    (s.diskUsage.filterMap (fun pu =>
      if pu.2 > 90 then
        some (⟨s.timestamp, "DISK_SPACE", "MEDIUM",
          "Low disk space on " ++ pu.1 ++ ": " ++ toString pu.2 ++ "%"⟩ : Anomaly)
      else none)).filter (fun a => a.type == "CPU_USAGE") = [] := by
  rw [List.filter_eq_nil_iff]
  intro a ha
  obtain ⟨pu, _, hsome⟩ := List.mem_filterMap.mp ha
  by_cases h : pu.2 > 90
  · rw [if_pos h] at hsome
    cases hsome
    simp
  · rw [if_neg h] at hsome
    cases hsome

lemma filter_cpu_relative (s b : StateRecord) :
    (relativeAnomalies s b).filter (fun a => a.type == "CPU_USAGE") = [] := by
  unfold relativeAnomalies
  split_ifs <;> simp

/-- C5: a sample with `cpu_percent = 95` makes one `_check_anomalies` evaluation (with or
without a baseline) emit exactly one finding of type CPU_USAGE, and that finding has
severity HIGH; the code's hard-wired CPU threshold is 90, which 95 exceeds just as it
exceeds the spec's configured threshold of 80. -/
theorem cpu95_single_high_finding (s : StateRecord) (b : Option StateRecord)
    (h : s.cpuPercent = 95) :
    (anomaliesAppended (checkAnomalies s b)).filter (fun a => a.type == "CPU_USAGE") =
      [⟨s.timestamp, "CPU_USAGE", "HIGH",
        "High CPU usage: " ++ toString s.cpuPercent ++ "%"⟩] := by
  have habs : (absoluteAnomalies s).filter (fun a => a.type == "CPU_USAGE") =
      [⟨s.timestamp, "CPU_USAGE", "HIGH",
        "High CPU usage: " ++ toString s.cpuPercent ++ "%"⟩] := by
    unfold absoluteAnomalies
    rw [if_pos (by rw [h]; norm_num), List.filter_append, List.filter_append,
      filter_cpu_memory, filter_cpu_disk]
    simp
  cases b with
  | none => simpa [checkAnomalies, anomaliesAppended] using habs
  | some base =>
      simp only [checkAnomalies, anomaliesAppended, List.filter_append, habs,
        filter_cpu_relative, List.append_nil]

/-- Witness for C5 at a concrete input. -/
theorem cpu95_single_high_finding_witness :
    (anomaliesAppended (checkAnomalies ⟨0, 95, 50, [], 10, 10⟩ none)).filter
        (fun a => a.type == "CPU_USAGE") =
      [⟨0, "CPU_USAGE", "HIGH", "High CPU usage: " ++ toString (95 : ℚ) ++ "%"⟩] :=
  cpu95_single_high_finding ⟨0, 95, 50, [], 10, 10⟩ none rfl

lemma sampleLoop_length (b : StateRecord) (source : ℕ → StateRecord) :
    ∀ (n idx : ℕ), (sampleLoop b source idx n).1.length = n := by
  intro n
  induction n with
  | zero => intro idx; rfl
  | succ m ih =>
      intro idx
      simp only [sampleLoop, List.length_cons, ih]

lemma monitorResults_monitor (b0 : Option StateRecord) (t0 : ℚ) (d : ℕ) (i : ℚ)
    (source : ℕ → StateRecord) (procs : List ProcInfo) :
    monitorResults (monitor b0 t0 d i source procs) =
      monitorRun b0 t0 d i source procs := by
  simp only [monitor]
  split <;> rfl

lemma monitorRun_samples (b0 : Option StateRecord) (t0 : ℚ) (d : ℕ) (i : ℚ)
    (source : ℕ → StateRecord) (procs : List ProcInfo) :
    (monitorRun b0 t0 d i source procs).samples =
      (sampleLoop (b0.getD (source 0)) source (if b0.isNone then 1 else 0)
        ((pyInt ((d : ℚ) / i)).toNat)).1 := rfl

lemma monitor_raised_eq (b0 : Option StateRecord) (t0 : ℚ) (d : ℕ) (i : ℚ)
    (source : ℕ → StateRecord) (procs : List ProcInfo) :
    raised (monitor b0 t0 d i source procs) =
      raised (securityAssessment procs (monitorRun b0 t0 d i source procs).samples []) := by
  simp only [monitor]
  split <;> simp_all [raised]

/-- C6: with positive duration and positive interval, the sampling loop of `monitor` runs
`int(duration / interval)` iterations, so the number of samples appended to
`results["samples"]` equals floor(duration / interval). -/
theorem monitor_sample_count (b0 : Option StateRecord) (t0 : ℚ) (d : ℕ) (i : ℚ)
    (source : ℕ → StateRecord) (procs : List ProcInfo) (hd : 0 < d) (hi : 0 < i) :
    (monitorResults (monitor b0 t0 d i source procs)).samples.length =
      (⌊(d : ℚ) / i⌋).toNat := by
  have hq : (0 : ℚ) ≤ (d : ℚ) / i := div_nonneg (Nat.cast_nonneg d) hi.le
  rw [monitorResults_monitor, monitorRun_samples, sampleLoop_length, pyInt, if_pos hq]

/-- Witness for C6 at a concrete input: duration 2, interval 1 gives 2 samples. -/
theorem monitor_sample_count_witness :
    (monitorResults (monitor none 0 2 1 (fun _ => quietSample) [])).samples.length =
      (⌊(2 : ℚ) / 1⌋).toNat :=
  monitor_sample_count none 0 2 1 (fun _ => quietSample) [] (by norm_num) (by norm_num)

/-- C10: when floor(duration / interval) is zero (for example a positive duration smaller
than the interval), the sample list stays empty, `_security_assessment` indexes
`results["samples"][-1]` on an empty list, and `monitor` raises instead of returning a
zero-sample result. -/
theorem monitor_zero_iterations_raises (b0 : Option StateRecord) (t0 : ℚ) (d : ℕ) (i : ℚ)
    (source : ℕ → StateRecord) (procs : List ProcInfo) (hi : 0 < i)
    (h0 : ⌊(d : ℚ) / i⌋ = 0) :
    raised (monitor b0 t0 d i source procs) = true ∧
    (monitorResults (monitor b0 t0 d i source procs)).samples = [] := by
  have hq : (0 : ℚ) ≤ (d : ℚ) / i := div_nonneg (Nat.cast_nonneg d) hi.le
  have hcount : (pyInt ((d : ℚ) / i)).toNat = 0 := by
    rw [pyInt, if_pos hq, h0]
    rfl
  constructor
  · rw [monitor_raised_eq, monitorRun_samples, hcount]
    rfl
  · rw [monitorResults_monitor, monitorRun_samples, hcount]
    rfl

/-- Witness for C10 at a concrete input: duration 1, interval 2. -/
theorem monitor_zero_iterations_raises_witness :
    raised (monitor none 0 1 2 (fun _ => quietSample) []) = true ∧
    (monitorResults (monitor none 0 1 2 (fun _ => quietSample) [])).samples = [] :=
  monitor_zero_iterations_raises none 0 1 2 (fun _ => quietSample) [] (by norm_num)
    (by rw [Int.floor_eq_zero_iff] <;> norm_num)

/-! ## Network analyzer: packets, connections and `_process_packet` -/

/-- The scapy packet attributes that `_process_packet`, `_analyze_tcp` and `_analyze_udp`
consult on a well-formed packet: layer membership tests, IP endpoints, `len(packet)`,
destination ports, and presence of a scapy HTTP layer. -/
structure FlowRecord where
  hasTCP : Bool
  hasUDP : Bool
  hasICMP : Bool
  hasIP : Bool
  ipSrc : String
  ipDst : String
  /-- `len(packet)` in bytes. -/
  byteLen : ℕ
  tcpDport : ℕ
  udpDport : ℕ
  hasHTTPLayer : Bool
deriving DecidableEq, Repr

/-- One value of `self.connections`: the per-connection stats dict. -/
structure ConnStats where
  packets : ℕ
  bytes : ℕ
  startTime : ℚ
  protocols : List String
deriving DecidableEq, Repr

/-- `NetworkAnalyzer` instance state: `self.packets` (only the capture times are read by
the report), `self.connections` as an insertion-ordered association list (a Python dict),
and `self.protocols` as an insertion-ordered duplicate-free list (a Python set). -/
structure AnalyzerState where
  interface : String
  packetTimes : List ℚ
  connections : List (String × ConnStats)
  protocols : List String
deriving DecidableEq, Repr

/-- Python `set.add`: no-op when the element is present, else insert. -/
def setAdd (l : List String) (x : String) : List String :=
  if x ∈ l then l else l ++ [x]

/-- Python dict lookup on the association-list model. -/
def lookupConn : List (String × ConnStats) → String → Option ConnStats
  | [], _ => none
  | (k, v) :: rest, key => if k = key then some v else lookupConn rest key

/-- In-place update of the entry at a key (the caller guarantees presence). -/
def modifyConn (f : ConnStats → ConnStats) :
    List (String × ConnStats) → String → List (String × ConnStats)
  | [], _ => []
  | (k, v) :: rest, key =>
      if k = key then (k, f v) :: rest else (k, v) :: modifyConn f rest key

/-- The `f"{packet[IP].src}:{packet[IP].dst}"` connection key. -/
def connKey (p : FlowRecord) : String :=
  p.ipSrc ++ ":" ++ p.ipDst

/-- `_analyze_tcp` protocol-set effects (lines 111-134): scapy HTTP layer, then the
destination-port service table. -/
def analyzeTcpProtocols (p : FlowRecord) (protos : List String) : List String :=
  let protos := if p.hasHTTPLayer then setAdd protos "HTTP" else protos
  if p.tcpDport = 80 then setAdd protos "HTTP"
  else if p.tcpDport = 443 then setAdd protos "HTTPS"
  else if p.tcpDport = 22 then setAdd protos "SSH"
  else if p.tcpDport = 21 then setAdd protos "FTP"
  else protos

/-- `_analyze_udp` protocol-set effects (lines 136-146). -/
def analyzeUdpProtocols (p : FlowRecord) (protos : List String) : List String :=
  if p.udpDport = 53 then setAdd protos "DNS"
  else if p.udpDport = 67 ∨ p.udpDport = 68 then setAdd protos "DHCP"
  else protos

/-- The stats update of `_process_packet` lines 100-106 on an existing entry. -/
def connUpdate (p : FlowRecord) (c : ConnStats) : ConnStats :=
  { c with
    packets := c.packets + 1
    bytes := c.bytes + p.byteLen
    protocols :=
      if p.hasTCP then setAdd c.protocols "TCP"
      else if p.hasUDP then setAdd c.protocols "UDP"
      else c.protocols }

/-- The body of `_process_packet` on a well-formed packet (lines 78-106): protocol
classification, then connection tracking keyed by `src:dst`, lazily creating a zeroed
entry stamped with the current wall clock `now`. -/
def processPacketBody (st : AnalyzerState) (p : FlowRecord) (now : ℚ) : AnalyzerState :=
  let protos :=
    if p.hasTCP then analyzeTcpProtocols p (setAdd st.protocols "TCP")
    else if p.hasUDP then analyzeUdpProtocols p (setAdd st.protocols "UDP")
    else if p.hasICMP then setAdd st.protocols "ICMP"
    else st.protocols
  let conns :=
    if p.hasIP then
      let key := connKey p
      let conns0 :=
        if (lookupConn st.connections key).isNone then
          st.connections ++ [(key, ⟨0, 0, now, []⟩)]
        else st.connections
      modifyConn (connUpdate p) conns0 key
    else st.connections
  { st with protocols := protos, connections := conns }

/-- `NetworkAnalyzer._process_packet(packet)` (lines 72-109). A null or malformed unit
(`none`) raises at the very first attribute access (`packet.haslayer`), before any state
mutation; the blanket `except` handler logs the error, so the call returns with the state
unchanged. A well-formed packet is processed by the body. -/
def processPacket (st : AnalyzerState) (packet : Option FlowRecord) (now : ℚ) :
    AnalyzerState :=
  match packet with
  | none => st
  | some p => processPacketBody st p now

/-- A sequence of `_process_packet` calls: each record paired with the wall-clock time of
its call. -/
def processAll (st : AnalyzerState) (records : List (FlowRecord × ℚ)) : AnalyzerState :=
  records.foldl (fun s r => processPacket s (some r.1) r.2) st

/-- C3: a null or malformed record fed to `_process_packet` does not raise to the caller
and is a no-op on the analyzer state: no connection entry is created and no existing
aggregate or protocol set is mutated. -/
theorem processPacket_null_noop (st : AnalyzerState) (now : ℚ) :
    processPacket st none now = st ∧
    (processPacket st none now).connections = st.connections ∧
    (processPacket st none now).protocols = st.protocols :=
  ⟨rfl, rfl, rfl⟩

lemma lookupConn_append_self {l : List (String × ConnStats)} {k : String}
    (h : lookupConn l k = none) (v : ConnStats) :
    lookupConn (l ++ [(k, v)]) k = some v := by
  induction l with
  | nil => simp [lookupConn]
  | cons kv rest ih =>
      by_cases hk : kv.1 = k
      · rw [lookupConn, if_pos hk] at h
        cases h
      · rw [lookupConn, if_neg hk] at h
        rw [List.cons_append, lookupConn, if_neg hk]
        exact ih h

lemma lookupConn_modify (f : ConnStats → ConnStats) (l : List (String × ConnStats))
    (k : String) :
    lookupConn (modifyConn f l k) k = (lookupConn l k).map f := by
  induction l with
  | nil => simp [lookupConn, modifyConn]
  | cons kv rest ih =>
      by_cases hk : kv.1 = k
      · rw [modifyConn, if_pos hk, lookupConn, if_pos hk, lookupConn, if_pos hk]
        rfl
      · rw [modifyConn, if_neg hk, lookupConn, if_neg hk, lookupConn, if_neg hk]
        exact ih

lemma processPacketBody_lookup (st : AnalyzerState) (p : FlowRecord) (now : ℚ)
    (hip : p.hasIP = true) :
    lookupConn (processPacketBody st p now).connections (connKey p) =
      some (connUpdate p ((lookupConn st.connections (connKey p)).getD ⟨0, 0, now, []⟩)) := by
  simp only [processPacketBody, hip, if_true]
  cases h : lookupConn st.connections (connKey p) with
  | none =>
      simp only [h, Option.isNone_none, if_true]
      rw [lookupConn_modify, lookupConn_append_self h]
      rfl
  | some c =>
      simp only [h, Option.isNone_some, Bool.false_eq_true, if_false]
      rw [lookupConn_modify, h]
      rfl

lemma processAll_lookup_from (records : List (FlowRecord × ℚ)) (src dst : String)
    (hall : ∀ r ∈ records, r.1.hasIP = true ∧ r.1.ipSrc = src ∧ r.1.ipDst = dst) :
    ∀ (st : AnalyzerState) (c : ConnStats),
      lookupConn st.connections (src ++ ":" ++ dst) = some c →
      ∃ c2, lookupConn (processAll st records).connections (src ++ ":" ++ dst) = some c2 ∧
        c2.packets = c.packets + records.length ∧
        c2.bytes = c.bytes + (records.map (fun r => r.1.byteLen)).sum := by
  induction records with
  | nil =>
      intro st c hc
      exact ⟨c, hc, by simp, by simp⟩
  | cons r rest ih =>
      intro st c hc
      obtain ⟨hip, hsrc, hdst⟩ := hall r (List.mem_cons_self _ _)
      have hkey : connKey r.1 = src ++ ":" ++ dst := by
        rw [connKey, hsrc, hdst]
      have hstep := processPacketBody_lookup st r.1 r.2 hip
      rw [hkey, hc] at hstep
      have hrest := ih (fun q hq => hall q (List.mem_cons_of_mem _ hq))
        (processPacketBody st r.1 r.2) (connUpdate r.1 c) (by simpa using hstep)
      obtain ⟨c2, hl, hp, hb⟩ := hrest
      refine ⟨c2, hl, ?_, ?_⟩
      · rw [hp]
        simp [connUpdate]
        ring
      · rw [hb]
        simp [connUpdate]
        ring

/-- C2: for every sequence of well-formed flow records that share the same
(source, destination) key, starting from any analyzer state with no entry for that key,
processing them all leaves a connection aggregate whose packet count is the number of
records and whose byte count is the sum of their byte lengths. -/
theorem aggregate_counts (src dst : String) (records : List (FlowRecord × ℚ))
    (hne : records ≠ [])
    (hall : ∀ r ∈ records, r.1.hasIP = true ∧ r.1.ipSrc = src ∧ r.1.ipDst = dst)
    (st : AnalyzerState) (hfresh : lookupConn st.connections (src ++ ":" ++ dst) = none) :
    ∃ c, lookupConn (processAll st records).connections (src ++ ":" ++ dst) = some c ∧
      c.packets = records.length ∧
      c.bytes = (records.map (fun r => r.1.byteLen)).sum := by
  cases records with
  | nil => exact absurd rfl hne
  | cons r rest =>
      obtain ⟨hip, hsrc, hdst⟩ := hall r (List.mem_cons_self _ _)
      have hkey : connKey r.1 = src ++ ":" ++ dst := by
        rw [connKey, hsrc, hdst]
      have hstep := processPacketBody_lookup st r.1 r.2 hip
      rw [hkey, hfresh] at hstep
      have hrest := processAll_lookup_from rest src dst
        (fun q hq => hall q (List.mem_cons_of_mem _ hq))
        (processPacketBody st r.1 r.2)
        (connUpdate r.1 ⟨0, 0, r.2, []⟩) (by simpa using hstep)
      obtain ⟨c2, hl, hp, hb⟩ := hrest
      refine ⟨c2, hl, ?_, ?_⟩
      · rw [hp]
        simp [connUpdate]
        ring
      · rw [hb]
        simp [connUpdate]

/-- Witness for C2 at a concrete input: two TCP records on the same key give packet
count 2 and byte count 100 + 60. -/
theorem aggregate_counts_witness :
    ∃ c, lookupConn (processAll ⟨"eth0", [], [], []⟩
        [(⟨true, false, false, true, "10.0.0.1", "10.0.0.2", 100, 80, 0, false⟩, 0),
         (⟨true, false, false, true, "10.0.0.1", "10.0.0.2", 60, 443, 0, false⟩, 1)]).connections
        ("10.0.0.1" ++ ":" ++ "10.0.0.2") = some c ∧
      c.packets = 2 ∧ c.bytes = 160 := by
  have h := aggregate_counts "10.0.0.1" "10.0.0.2"
    [(⟨true, false, false, true, "10.0.0.1", "10.0.0.2", 100, 80, 0, false⟩, 0),
     (⟨true, false, false, true, "10.0.0.1", "10.0.0.2", 60, 443, 0, false⟩, 1)]
    (by simp)
    (by intro r hr; fin_cases hr <;> exact ⟨rfl, rfl, rfl⟩)
    ⟨"eth0", [], [], []⟩ rfl
  simpa using h

/-! ## Report builders -/

/-- JSON-like values: the shape of the report dicts both pipelines assemble. -/
inductive JValue where
  | str : String → JValue
  | num : ℚ → JValue
  | arr : List JValue → JValue
  | obj : List (String × JValue) → JValue

/-- Top-level keys of an object document, in construction order. -/
def topKeys : JValue → List String
  | .obj fields => fields.map Prod.fst
  | _ => []

/-- Field access on an object document. -/
def jField (j : JValue) (k : String) : Option JValue :=
  match j with
  | .obj fields => (fields.find? (fun kv => kv.1 == k)).map Prod.snd
  | _ => none

/-- The value carried by a successful call, `none` if the call raised. -/
def okValue {ε α : Type _} : Except ε α → Option α
  | .ok a => some a
  | .error _ => none

/-- One entry of the network report's `connections` array. -/
structure ReportConn where
  source : String
  destination : String
  packets : ℕ
  bytes : ℕ
  duration : ℚ
  protocols : List String
deriving DecidableEq, Repr

/-- One entry of the network report's `findings` array. -/
structure NetFinding where
  type : String
  severity : String
  description : String
  recommendation : String
deriving DecidableEq, Repr

/-- Split a character list at every occurrence of `sep` (Python `str.split(sep)` on the
character level). -/
def splitOnChar (sep : Char) : List Char → List (List Char)
  | [] => [[]]
  | c :: rest =>
      let r := splitOnChar sep rest
      if c = sep then [] :: r
      else (c :: r.headD []) :: r.tail

/-- Python `s.split(sep)` for a one-character separator. -/
def pySplit (s : String) (sep : Char) : List String :=
  (splitOnChar sep s.data).map (fun cs => String.mk cs)

/-- The connection entries of the network report (lines 169-182). The two-part unpacking
`src, dst = conn_key.split(":")` is modelled for two-part keys, the shape
`_process_packet` builds; `duration` is `datetime.now() - start_time`, read from the
wall clock at report time. -/
def reportConnections (conns : List (String × ConnStats)) (now : ℚ) : List ReportConn :=
  conns.map (fun kd =>
    let parts := pySplit kd.1 ':'
    ⟨parts.headD "", (parts.drop 1).headD "", kd.2.packets, kd.2.bytes,
      now - kd.2.startTime, kd.2.protocols⟩)

/-- The burst-traffic check of `_add_security_findings` (lines 217-226). -/
def trafficFinding (c : ReportConn) : Option NetFinding :=
  if c.packets > 1000 ∧ c.duration < 10 then
    some ⟨"TRAFFIC", "MEDIUM", "High packet rate from " ++ c.source,
      "Investigate potential DoS activity"⟩
  else none

/-- The finding dict appended by the HTTP plaintext rule (lines 196-204). -/
def httpPlaintextFinding : NetFinding :=
  ⟨"PLAINTEXT", "HIGH", "Plaintext HTTP traffic detected", "Use HTTPS for all web traffic"⟩

/-- The finding dict appended by the FTP plaintext rule (lines 206-214). -/
def ftpPlaintextFinding : NetFinding :=
  ⟨"PLAINTEXT", "HIGH", "Plaintext FTP traffic detected", "Use SFTP or FTPS instead"⟩

/-- `_add_security_findings` (lines 189-226): the HTTP plaintext rule, the FTP plaintext
rule, then the per-connection burst rule, appended in that order. -/
def addSecurityFindings (protocols : List String) (conns : List ReportConn) :
    List NetFinding :=
  (if "HTTP" ∈ protocols then [httpPlaintextFinding] else []) ++
  (if "FTP" ∈ protocols then [ftpPlaintextFinding] else []) ++
  conns.filterMap trafficFinding

/-- Observer: is this finding the HTTP plaintext finding (a PLAINTEXT finding whose
description names HTTP)? -/
def isHttpPlaintext (f : NetFinding) : Bool :=
  f.type == "PLAINTEXT" && f.description == "Plaintext HTTP traffic detected"

/-- The `findings` array content of a network report generated at wall-clock time `now`. -/
def netReportFindings (st : AnalyzerState) (now : ℚ) : List NetFinding :=
  addSecurityFindings st.protocols (reportConnections st.connections now)

def connJ (c : ReportConn) : JValue :=
  .obj [("source", .str c.source), ("destination", .str c.destination),
    ("packets", .num c.packets), ("bytes", .num c.bytes),
    ("duration", .num c.duration), ("protocols", .arr (c.protocols.map JValue.str))]

def findingJ (f : NetFinding) : JValue :=
  .obj [("type", .str f.type), ("severity", .str f.severity),
    ("description", .str f.description), ("recommendation", .str f.recommendation)]

/-- `NetworkAnalyzer.generate_report` (lines 148-187), called at wall-clock time `now`.
The `timestamp` field and every connection `duration` (and hence the burst findings) are
read from the clock at report time. -/
def netGenerateReport (st : AnalyzerState) (now : ℚ) : JValue :=
  .obj [
    ("timestamp", .num now),
    ("interface", .str st.interface),
    ("duration", .num (match st.packetTimes.getLast?, st.packetTimes.head? with
      | some tLast, some tFirst => tLast - tFirst
      | _, _ => 0)),
    ("total_packets", .num st.packetTimes.length),
    ("protocols", .arr (st.protocols.map JValue.str)),
    ("connections", .arr ((reportConnections st.connections now).map connJ)),
    ("findings", .arr ((netReportFindings st now).map findingJ))]

def anomalyJ (a : Anomaly) : JValue :=
  .obj [("timestamp", .num a.timestamp), ("type", .str a.type),
    ("severity", .str a.severity), ("description", .str a.description)]

def secIssueJ (s : SecIssue) : JValue :=
  .obj [("type", .str s.type), ("severity", .str s.severity),
    ("description", .str s.description), ("recommendation", .str s.recommendation)]

/-- A state sample as recorded in the report (restricted, like `StateRecord`, to the
fields the monitoring logic consults). -/
def stateJ (s : StateRecord) : JValue :=
  .obj [("timestamp", .num s.timestamp), ("cpu_percent", .num s.cpuPercent),
    ("memory_percent", .num s.memoryPercent),
    ("disk_usage", .obj (s.diskUsage.map (fun pu => (pu.1, JValue.num pu.2)))),
    ("network_connections", .num s.networkConnections),
    ("processes_total", .num s.processesTotal)]

/-- `SystemMonitor.generate_report` (lines 258-291): the body that assembles the `report`
dict (the file write is I/O outside the embedding). `now` models the ambient wall clock
at call time; the body makes no `datetime.now()` call, so it never reads it. The body
raises a `KeyError` when the results dict has no `"baseline"` key and an `IndexError` on
`results["samples"][-1]` when the sample log is empty. -/
def sysGenerateReport (results : MonitorResults) (now : ℚ) : Except String JValue :=
  match results.baseline, results.samples.getLast? with
  | none, _ => .error "KeyError: baseline"
  | some _, none => .error "IndexError: samples"
  | some b, some lastS =>
      .ok (.obj [
        ("monitoring_info", .obj [("start_time", .num results.startTime),
          ("duration", .num results.duration), ("interval", .num results.interval)]),
        ("system_state", .obj [("initial", stateJ b), ("final", stateJ lastS)]),
        ("anomalies", .arr (results.anomalies.map anomalyJ)),
        ("security_issues", .arr (results.securityIssues.map secIssueJ)),
        ("summary", .obj [
          ("total_anomalies", .num results.anomalies.length),
          ("total_security_issues", .num results.securityIssues.length),
          ("risk_level", .str
            (calculateRiskLevel results.anomalies results.securityIssues))])])

/-! ## Theorems about the report builders -/

/-- A state with one connection of 1001 packets first seen at time 0, used to show the
network report depends on the wall clock read at report time. -/
def burstState : AnalyzerState :=
  ⟨"eth0", [], [("1.1.1.1:2.2.2.2", ⟨1001, 50000, 0, ["TCP"]⟩)], ["TCP"]⟩

/-- C7 counterexample: the network report builder is not a pure function of the analyzer
state — called on the same immutable state at report times 5 and 15 it produces different
findings (one TRAFFIC finding versus none), because per-connection durations are read
from the wall clock at report time. -/
theorem net_report_clock_dependent :
    netReportFindings burstState 5 ≠ netReportFindings burstState 15 ∧
    (netReportFindings burstState 5).length = 1 ∧
    (netReportFindings burstState 15).length = 0 := by
  have hconns5 : reportConnections burstState.connections 5 =
      [⟨"1.1.1.1", "2.2.2.2", 1001, 50000, 5 - 0, ["TCP"]⟩] := rfl
  have hconns15 : reportConnections burstState.connections 15 =
      [⟨"1.1.1.1", "2.2.2.2", 1001, 50000, 15 - 0, ["TCP"]⟩] := rfl
  have h5 : netReportFindings burstState 5 =
      [⟨"TRAFFIC", "MEDIUM", "High packet rate from 1.1.1.1",
        "Investigate potential DoS activity"⟩] := by
    unfold netReportFindings
    rw [hconns5]
    show addSecurityFindings ["TCP"] _ = _
    unfold addSecurityFindings
    rw [if_neg (by simp), if_neg (by simp), List.nil_append, List.nil_append,
      List.filterMap_cons_some (by rw [trafficFinding]; rw [if_pos (by norm_num)]),
      List.filterMap_nil]
    rfl
  have h15 : netReportFindings burstState 15 = [] := by
    unfold netReportFindings
    rw [hconns15]
    show addSecurityFindings ["TCP"] _ = _
    unfold addSecurityFindings
    rw [if_neg (by simp), if_neg (by simp), List.nil_append, List.nil_append,
      List.filterMap_cons_none (by rw [trafficFinding]; rw [if_neg (by norm_num)]),
      List.filterMap_nil]
  rw [h5, h15]
  exact ⟨by simp, rfl, rfl⟩

/-- C7 (amended): the system-monitor report builder is a pure function of the results
dict — it reads no clock, so calls at any two instants on the same results produce
identical reports, in particular identical summary counts and risk level. The network
report builder is not clock-free: its timestamp, connection durations and burst findings
are read from the wall clock at report time. -/
theorem sys_report_clock_free (r : MonitorResults) (n1 n2 : ℚ) :
    sysGenerateReport r n1 = sysGenerateReport r n2 := rfl

/-- C8: whenever the observed protocol set contains "HTTP", the report's findings contain
exactly one PLAINTEXT finding for HTTP, with severity HIGH and the fixed recommendation
string, however many connections exist — the rule runs once at report time. -/
theorem http_plaintext_once (st : AnalyzerState) (now : ℚ) (h : "HTTP" ∈ st.protocols) :
    (netReportFindings st now).filter isHttpPlaintext = [httpPlaintextFinding] := by
  unfold netReportFindings addSecurityFindings
  rw [if_pos h, List.filter_append, List.filter_append]
  have hftp : ((if "FTP" ∈ st.protocols then [ftpPlaintextFinding] else []).filter
      isHttpPlaintext : List NetFinding) = [] := by
    split
    · rfl
    · rfl
  have htr : (((reportConnections st.connections now).filterMap
        trafficFinding).filter isHttpPlaintext : List NetFinding) = [] := by
    rw [List.filter_eq_nil_iff]
    intro f hf
    obtain ⟨c, _, hsome⟩ := List.mem_filterMap.mp hf
    unfold trafficFinding at hsome
    split at hsome
    · cases hsome
      simp [isHttpPlaintext]
    · cases hsome
  rw [hftp, htr, List.append_nil]
  rfl

/-- Witness for C8 at a concrete input: HTTP observed, two connections. -/
theorem http_plaintext_once_witness :
    (netReportFindings
        ⟨"eth0", [], [("a:b", ⟨2000, 900, 0, ["TCP"]⟩), ("c:d", ⟨5, 100, 0, ["TCP"]⟩)],
          ["TCP", "HTTP"]⟩ 100).filter isHttpPlaintext = [httpPlaintextFinding] :=
  http_plaintext_once
    ⟨"eth0", [], [("a:b", ⟨2000, 900, 0, ["TCP"]⟩), ("c:d", ⟨5, 100, 0, ["TCP"]⟩)],
      ["TCP", "HTTP"]⟩ 100 (by simp)

/-- A monitor results dict with a captured baseline and one sample, used as a concrete
session for the report-shape counterexample. -/
def exResults : MonitorResults :=
  ⟨0, 60, 1, [quietSample], [], [], some quietSample⟩

/-- C9 counterexample: the produced reports do not carry the claimed contractual keys —
the network report of a concrete session has no `summary` object at all, and the system
report's top-level keys nest `duration`/`interval` under `monitoring_info` and contain
neither `timestamp` nor `samples`. -/
theorem report_keys_counterexample :
    "summary" ∉ topKeys (netGenerateReport ⟨"eth0", [], [], []⟩ 0) ∧
    (okValue (sysGenerateReport exResults 0)).map topKeys =
      some ["monitoring_info", "system_state", "anomalies", "security_issues", "summary"] ∧
    "timestamp" ∉ ["monitoring_info", "system_state", "anomalies", "security_issues",
      "summary"] := by
  refine ⟨?_, rfl, ?_⟩ <;> decide

/-- C9 (amended): the network report's top-level keys are `timestamp`, `interface`,
`duration`, `total_packets`, `protocols`, `connections`, `findings` — with no `summary`
object; every system report that builds successfully has top-level keys
`monitoring_info` (nesting `start_time`, `duration`, `interval`), `system_state`,
`anomalies`, `security_issues`, `summary`, and its `summary` object has exactly the keys
`total_anomalies`, `total_security_issues`, `risk_level`. -/
theorem report_keys (st : AnalyzerState) (now : ℚ) (r : MonitorResults)
    (hok : raised (sysGenerateReport r now) = false) :
    topKeys (netGenerateReport st now) =
      ["timestamp", "interface", "duration", "total_packets", "protocols",
        "connections", "findings"] ∧
    (okValue (sysGenerateReport r now)).map topKeys =
      some ["monitoring_info", "system_state", "anomalies", "security_issues",
        "summary"] ∧
    ((okValue (sysGenerateReport r now)).bind (fun j => jField j "summary")).map topKeys =
      some ["total_anomalies", "total_security_issues", "risk_level"] := by
  refine ⟨rfl, ?_, ?_⟩ <;>
  · unfold sysGenerateReport at hok ⊢
    split at hok
    · cases hok
    · cases hok
    · rfl

/-- Witness for C9 (amended) at a concrete session. -/
theorem report_keys_witness :
    topKeys (netGenerateReport ⟨"eth0", [], [], []⟩ 0) =
      ["timestamp", "interface", "duration", "total_packets", "protocols",
        "connections", "findings"] ∧
    (okValue (sysGenerateReport exResults 0)).map topKeys =
      some ["monitoring_info", "system_state", "anomalies", "security_issues",
        "summary"] ∧
    ((okValue (sysGenerateReport exResults 0)).bind (fun j => jField j "summary")).map
        topKeys =
      some ["total_anomalies", "total_security_issues", "risk_level"] :=
  report_keys ⟨"eth0", [], [], []⟩ 0 exResults rfl

end UnixPi
